import Mathlib

/-
Shallow embedding of `src/syft/grid/grid_client.py` (PySyft GridClient).

Wall-clock durations and speeds are modelled as rationals; the streaming
HTTP body is a finite list of chunk events (a successful `next` on the
chunk generator, or an exception raised by `next`).  Python exceptions
are modelled with explicit `Except` results.  Line numbers in the doc
comments refer to `src/syft/grid/grid_client.py`.
-/

/-- Constant CHUNK_SIZE = 8192 (line 19). -/
def CHUNK_SIZE : ℕ := 8192

/-- Constant SPEED_MULT_FACTOR = 10 (line 20). -/
def SPEED_MULT_FACTOR : ℕ := 10

/-- Constant MAX_BUFFER_SIZE = 1048576 (line 21). -/
def MAX_BUFFER_SIZE : ℕ := 1048576

/-- Constant CHECK_SPEED_ITER = 10 (line 22). -/
def CHECK_SPEED_ITER : ℕ := 10

/-- One event produced by `next(chunk_generator)` inside
`_read_n_request_chunks` (lines 96-102): either a chunk arrives, or the
call raises a transport exception.  End of stream (StopIteration) is the
list running out. -/
inductive ChunkEvent where
  | chunk
  | err
  deriving DecidableEq

/-- Models `_read_n_request_chunks` (lines 96-102): try to pull `n` chunks
from the generator; the bare `except:` turns StopIteration, and equally any
transport exception raised by `next`, into the return value False.  Returns
the flag together with the rest of the stream. -/
def read_n_request_chunks : List ChunkEvent → ℕ → Bool × List ChunkEvent
  | s, 0 => (true, s)
  | [], _ + 1 => (false, [])
  | ChunkEvent.err :: rest, _ + 1 => (false, rest)
  | ChunkEvent.chunk :: rest, n + 1 => read_n_request_chunks rest n

/-- The mutable state of the download-probe loop of `_get_download_speed`
(lines 134-151): the window size `buffer_size`, the list `speed_history`,
the time elapsed since `prev_timestamp` was last set, and the remaining
chunk stream. -/
structure DlState where
  bufferSize : ℕ
  speedHistory : List ℚ
  elapsed : ℚ
  stream : List ChunkEvent
  deriving DecidableEq

/-- Result of one iteration of the download-probe loop: either the loop
continues in a new state, or it exits (stream end, swallowed exception, or
convergence break) carrying the recorded samples. -/
inductive DlOutcome where
  | running (s : DlState)
  | stopped (history : List ℚ)
  deriving DecidableEq

/-- Python's `min(speed_history)` over a nonempty list (line 148); 0 on the
empty list, which the source never reaches there. -/
def listMin : List ℚ → ℚ
  | [] => 0
  | x :: xs => xs.foldl min x

/-- Python's `sum(speed_history) / len(speed_history)` (lines 147 and 153),
as a total rational function. -/
def listAvg (xs : List ℚ) : ℚ := xs.sum / (xs.length : ℚ)

/-- The sample recorded at line 144: `buffer_size / (time_taken * 1024)`,
where `time_taken = s.elapsed + d` for the current iteration's duration `d`. -/
def newSpeedOf (s : DlState) (d : ℚ) : ℚ :=
  (s.bufferSize : ℚ) / ((s.elapsed + d) * 1024)

/-- One iteration of the `while` loop of `_get_download_speed`
(lines 139-151), where `d` is the wall-clock duration of this iteration's
`_read_n_request_chunks` call.  If the read fails the loop exits with the
history so far.  If `time_taken < 0.5` the buffer is grown and clamped and
no sample is recorded; note the `continue` at line 143 skips the
`prev_timestamp` reset, so the elapsed time keeps accumulating.  Otherwise
the sample is appended, and at every CHECK_SPEED_ITER-th sample the
convergence test of lines 146-150 may break out of the loop; else the
timer is reset to 0. -/
def dlStep (d : ℚ) (s : DlState) : DlOutcome :=
  let rd := read_n_request_chunks s.stream (s.bufferSize / CHUNK_SIZE)
  if rd.1 = false then
    DlOutcome.stopped s.speedHistory
  else if s.elapsed + d < 1/2 then
    DlOutcome.running
      { bufferSize := min (s.bufferSize * SPEED_MULT_FACTOR) MAX_BUFFER_SIZE,
        speedHistory := s.speedHistory, elapsed := s.elapsed + d, stream := rd.2 }
  else if (s.speedHistory ++ [newSpeedOf s d]).length % CHECK_SPEED_ITER = 0 ∧
          listAvg (s.speedHistory ++ [newSpeedOf s d]) -
            listMin (s.speedHistory ++ [newSpeedOf s d]) < 20 ∧
          0 < listAvg (s.speedHistory ++ [newSpeedOf s d]) then
    DlOutcome.stopped (s.speedHistory ++ [newSpeedOf s d])
  else
    DlOutcome.running
      { bufferSize := s.bufferSize,
        speedHistory := s.speedHistory ++ [newSpeedOf s d],
        elapsed := 0, stream := rd.2 }

/-- The download-probe loop run against a list of per-iteration durations;
`none` when the supplied duration trace ends before the loop does. -/
def dlLoop : List ℚ → DlState → Option (List ℚ)
  | [], _ => none
  | d :: ds, s =>
    match dlStep d s with
    | DlOutcome.stopped h => some h
    | DlOutcome.running s2 => dlLoop ds s2

/-- Python exceptions that the embedded operations can raise. -/
inductive PyErr where
  | zeroDivision
  | typeErrFloatCall
  | unboundLocal
  | attributeNone
  deriving DecidableEq

/-- Modelled from the spec: the source of `_get_download_speed` reads
`buffer_size` (line 139) without ever assigning it first; the spec says the
window size "starts at some initial value below the ceiling", so the
embedding takes the initial value as a parameter constrained by this
predicate (a positive size not above MAX_BUFFER_SIZE). -/
def initialBufferBelowCeiling (b0 : ℕ) : Prop :=
  1 ≤ b0 ∧ b0 ≤ MAX_BUFFER_SIZE

/-- Models `_get_download_speed` (lines 129-154) after the streaming GET is
open: run the loop from an empty history, then compute
`sum(speed_history) / len(speed_history)` (line 153), which in Python
raises ZeroDivisionError when no sample was ever recorded.  The initial
`buffer_size` is the parameter `b0` (see `initialBufferBelowCeiling`); the
unbound name `path` of line 136 only affects how the stream is opened, not
the loop modelled here. -/
def getDownloadSpeed (b0 : ℕ) (ds : List ℚ) (stream : List ChunkEvent) :
    Option (Except PyErr ℚ) :=
  match dlLoop ds { bufferSize := b0, speedHistory := [], elapsed := 0, stream := stream } with
  | none => none
  | some h =>
      if h.length = 0 then some (Except.error PyErr.zeroDivision)
      else some (Except.ok (h.sum / (h.length : ℚ)))

/-- Size in bytes of the synthetic upload payload built at line 116:
`b"x" * MAX_BUFFER_SIZE * 64`. -/
def uploadPayloadSize : ℕ := MAX_BUFFER_SIZE * 64

/-- Calling a Python float as a function raises TypeError. -/
def callFloat (_x : ℚ) : Except PyErr ℚ :=
  Except.error PyErr.typeErrFloatCall

/-- Models `_get_upload_speed` (lines 115-127) after the POST has returned:
line 126 computes `64 * 1024 / (time() - start())`, where `start` is the
float timestamp taken at line 124 and `start()` is therefore a call on a
float.  `startT` is that timestamp and `nowT` the value of `time()` at
line 126. -/
def getUploadSpeed (startT nowT : ℚ) : Except PyErr ℚ :=
  match callFloat startT with
  | Except.error e => Except.error e
  | Except.ok s => Except.ok (64 * 1024 / (nowT - s))

/-- Modelled from the spec: the intended upload throughput, 64 MiB divided
by the wall-clock duration, expressed in KB/s (64 * 1024 KB over
`duration` seconds). -/
def uploadSpeedSpec (duration : ℚ) : ℚ := 64 * 1024 / duration

/-- A one-shot HTTP response as seen by `_send_http_req`: status code and
raw body bytes. -/
structure HttpResponse where
  statusCode : ℕ
  content : List ℕ
  deriving DecidableEq

/-- Models `requests.Response.ok`, the test used at line 86: it is True
exactly when the status code is below 400 (client/server error), not only
for 2xx statuses. -/
def HttpResponse.ok (r : HttpResponse) : Bool := r.statusCode < 400

/-- The payload of the GridError exception class (lines 25-28): the error
value and the optional HTTP status code. -/
structure GridErrorData where
  error : String
  status : Option ℕ
  deriving DecidableEq

/-- The two HTTP methods `_send_http_req` supports (lines 81-84). -/
inductive HttpMethod where
  | GET
  | POST
  deriving DecidableEq

/-- Models `_send_http_req` (lines 80-90) given the response the server
produced: raise GridError("HTTP response is not OK", status) when
`res.ok` is false, else return the raw content. -/
def send_http_req (_m : HttpMethod) (r : HttpResponse) :
    Except GridErrorData (List ℕ) :=
  if r.ok = false then
    Except.error { error := "HTTP response is not OK", status := some r.statusCode }
  else
    Except.ok r.content

/-- A decoded persistent-connection JSON response as used by `_send_msg`:
the optional `data.error` field and the rest of the payload. -/
structure WsResponse where
  dataError : Option String
  payload : String
  deriving DecidableEq

/-- Models the error handling of `_send_msg` (lines 74-78): if the decoded
response carries an `error` field, raise GridError(error, None); otherwise
return the response. -/
def send_msg (resp : WsResponse) : Except GridErrorData WsResponse :=
  match resp.dataError with
  | some e => Except.error { error := e, status := none }
  | none => Except.ok resp

/-- The Python exception classes relevant to GridError (line 25):
`class GridError(BaseException)` makes BaseException its direct base,
bypassing Exception. -/
inductive PyClass where
  | BaseExceptionC
  | ExceptionC
  | GridErrorC
  deriving DecidableEq

/-- Method-resolution order (the class followed by its bases): GridError
lists only BaseException (line 25); Exception also derives from
BaseException. -/
def pyMro : PyClass → List PyClass
  | PyClass.BaseExceptionC => [PyClass.BaseExceptionC]
  | PyClass.ExceptionC => [PyClass.ExceptionC, PyClass.BaseExceptionC]
  | PyClass.GridErrorC => [PyClass.GridErrorC, PyClass.BaseExceptionC]

/-- An `except H:` clause catches a raised instance of class `c` exactly
when `H` appears among `c` and its bases. -/
def pyCatches (handler c : PyClass) : Bool :=
  handler ∈ pyMro c

/-- The underlying websocket connection object, reduced to the flag the
embedding needs. -/
structure WsConn where
  connected : Bool
  deriving DecidableEq

/-- The slice of GridClient state relevant to `close`: `self.ws`, which is
None until `connect` assigns it (line 41 and line 55). -/
structure ClientState where
  ws : Option WsConn
  deriving DecidableEq

/-- The state right after `__init__` (line 41): `self.ws = None`. -/
def initClient : ClientState := { ws := none }

/-- Models `close` (lines 173-174): `self.ws.shutdown()`.  When `self.ws`
is None the attribute access raises AttributeError; otherwise the
websocket is shut down. -/
def closeClient (c : ClientState) : Except PyErr ClientState :=
  match c.ws with
  | none => Except.error PyErr.attributeNone
  | some _ => Except.ok { ws := some { connected := false } }

/-- The request path used by `get_protocol` (line 250). -/
def getProtocolPath : String := "/federated/get-protocol"

/-- Models the query-parameter dict built by `get_protocol` (lines
245-249): the given protocol id is stored under the key "plan_id". -/
def getProtocolParams (workerId requestKey protocolId : String) :
    List (String × String) :=
  [("worker_id", workerId), ("request_key", requestKey), ("plan_id", protocolId)]

/-- Dictionary lookup by key over an association list. -/
def lookupParam (k : String) : List (String × String) → Option String
  | [] => none
  | (k2, v) :: rest => if k2 = k then some v else lookupParam k rest

/-- The protobuf types the façade deserializes responses into. -/
inductive PBKind where
  | StatePB
  | PlanPB
  | ProtocolPB
  deriving DecidableEq

/-- `get_protocol` deserializes the response bytes as a Protocol
(line 251). -/
def getProtocolPBKind : PBKind := PBKind.ProtocolPB

/-- Reading a Python local name: UnboundLocalError when the name has no
value yet in the function's scope. -/
def readLocal (env : Option ℕ) : Except PyErr ℕ :=
  match env with
  | none => Except.error PyErr.unboundLocal
  | some v => Except.ok v

/-- Binding state of the local name `random` when line 263
(`random = random.getrandbits(128)`) evaluates its right-hand side: the
assignment on that line makes `random` local to the whole body of
`get_connection_speed`, shadowing the imported module, and no earlier
statement assigns it. -/
def localRandomAtLine263 : Option ℕ := none

/-- Models the body of `get_connection_speed` (lines 262-267): the first
statement reads the unbound local `random`; `k` is the continuation that
would run the three sub-probes and build the result dict had the read
succeeded. -/
def getConnectionSpeedBody (k : ℕ → Except PyErr (ℚ × ℚ × ℚ)) :
    Except PyErr (ℚ × ℚ × ℚ) :=
  match readLocal localRandomAtLine263 with
  | Except.error e => Except.error e
  | Except.ok r => k r


/-- A concrete buffer-size trajectory, starting at 1 byte and grown once
per fast window, used to witness the growth claim. -/
def fastBuffers : ℕ → ℕ
  | 0 => 1
  | n + 1 => min (fastBuffers n * SPEED_MULT_FACTOR) MAX_BUFFER_SIZE

/-- Helper: the average of n equal samples is the sample itself. -/
theorem listAvg_replicate (n : ℕ) (v : ℚ) (hn : n ≠ 0) :
    listAvg (List.replicate n v) = v := by
  rw [listAvg, List.sum_replicate, List.length_replicate, nsmul_eq_mul]
  rw [mul_comm, mul_div_assoc, div_self (by exact_mod_cast hn), mul_one]

/-- Helper: folding min over copies of the accumulator is the accumulator. -/
theorem listMin_foldl_replicate (n : ℕ) (v : ℚ) :
    List.foldl min v (List.replicate n v) = v := by
  induction n with
  | zero => rfl
  | succ k ih => rw [List.replicate_succ, List.foldl_cons, min_self]; exact ih

/-- Helper: the minimum of n + 1 equal samples is the sample itself. -/
theorem listMin_replicate (n : ℕ) (v : ℚ) :
    listMin (List.replicate (n + 1) v) = v := by
  rw [List.replicate_succ]
  show List.foldl min v (List.replicate n v) = v
  exact listMin_foldl_replicate n v

/-- Helper: a loop iteration whose window completed in under 0.5 s and
stayed inside the loop grows the buffer by SPEED_MULT_FACTOR clamped to
MAX_BUFFER_SIZE and records no sample. -/
theorem dlStep_running_fast (s : DlState) (d : ℚ) (s2 : DlState)
    (hstep : dlStep d s = DlOutcome.running s2) (hfast : s.elapsed + d < 1/2) :
    s2.bufferSize = min (s.bufferSize * SPEED_MULT_FACTOR) MAX_BUFFER_SIZE ∧
    s2.speedHistory = s.speedHistory := by
  simp only [dlStep] at hstep
  by_cases hr : (read_n_request_chunks s.stream (s.bufferSize / CHUNK_SIZE)).1 = false
  · rw [if_pos hr] at hstep
    exact absurd hstep (by simp)
  · rw [if_neg hr, if_pos hfast] at hstep
    cases hstep
    exact ⟨rfl, rfl⟩

/-- C1: during the download probe, every probing window that completes in
under 0.5 s multiplies the buffer size by SPEED_MULT_FACTOR clamped to
MAX_BUFFER_SIZE and records no sample; consequently along any run of such
updates starting from a positive size below the ceiling the buffer size is
monotonically nondecreasing, never exceeds MAX_BUFFER_SIZE, and after at
least seven fast windows equals exactly MAX_BUFFER_SIZE. -/
theorem c1_download_probe_growth :
    (∀ (s : DlState) (d : ℚ) (s2 : DlState),
        dlStep d s = DlOutcome.running s2 → s.elapsed + d < 1/2 →
        s2.bufferSize = min (s.bufferSize * SPEED_MULT_FACTOR) MAX_BUFFER_SIZE ∧
        s2.speedHistory = s.speedHistory) ∧
    (∀ (g : ℕ → ℕ) (N : ℕ),
        (∀ i, i < N → g (i + 1) = min (g i * SPEED_MULT_FACTOR) MAX_BUFFER_SIZE) →
        initialBufferBelowCeiling (g 0) →
        (∀ i j, i ≤ j → j ≤ N → g i ≤ g j) ∧
        (∀ i, i ≤ N → g i ≤ MAX_BUFFER_SIZE) ∧
        (7 ≤ N → g N = MAX_BUFFER_SIZE)) := by
  constructor
  · exact dlStep_running_fast
  · intro g N hrec hinit
    obtain ⟨h1, hM⟩ := hinit
    have hle : ∀ i, i ≤ N → g i ≤ MAX_BUFFER_SIZE := by
      intro i
      induction i with
      | zero => intro _; exact hM
      | succ k _ =>
        intro hk
        rw [hrec k (Nat.lt_of_succ_le hk)]
        exact min_le_right _ _
    have honestep : ∀ k, k < N → g k ≤ g (k + 1) := by
      intro k hk
      rw [hrec k hk]
      refine le_min ?_ (hle k hk.le)
      calc g k = g k * 1 := (mul_one _).symm
        _ ≤ g k * SPEED_MULT_FACTOR :=
            Nat.mul_le_mul_left _ (by norm_num [SPEED_MULT_FACTOR])
    have hmono : ∀ i j, i ≤ j → j ≤ N → g i ≤ g j := by
      intro i j hij
      induction hij with
      | refl => intro _; exact le_rfl
      | step hm ih =>
        intro hjN
        exact le_trans (ih (le_of_lt hjN)) (honestep _ hjN)
    have hpow : ∀ i, i ≤ N →
        min (g 0 * SPEED_MULT_FACTOR ^ i) MAX_BUFFER_SIZE ≤ g i := by
      intro i
      induction i with
      | zero =>
        intro _
        simp only [pow_zero, mul_one]
        exact min_le_left (g 0) MAX_BUFFER_SIZE
      | succ k ih =>
        intro hk
        have hkN : k < N := Nat.lt_of_succ_le hk
        rw [hrec k hkN]
        have hmul : min (g 0 * SPEED_MULT_FACTOR ^ k) MAX_BUFFER_SIZE * SPEED_MULT_FACTOR
            ≤ g k * SPEED_MULT_FACTOR :=
          Nat.mul_le_mul_right _ (ih (le_of_lt hkN))
        refine le_min (le_trans ?_ hmul) (min_le_right _ _)
        have hx : g 0 * SPEED_MULT_FACTOR ^ (k + 1) =
            g 0 * SPEED_MULT_FACTOR ^ k * SPEED_MULT_FACTOR := by
          rw [pow_succ, mul_assoc]
        rw [hx]
        generalize g 0 * SPEED_MULT_FACTOR ^ k = X
        simp only [SPEED_MULT_FACTOR, MAX_BUFFER_SIZE]
        omega
    refine ⟨hmono, hle, ?_⟩
    intro h7
    have hNle := hle N le_rfl
    have hNge := hpow N le_rfl
    have hbig : MAX_BUFFER_SIZE ≤ g 0 * SPEED_MULT_FACTOR ^ N := by
      calc MAX_BUFFER_SIZE ≤ SPEED_MULT_FACTOR ^ 7 := by
            norm_num [MAX_BUFFER_SIZE, SPEED_MULT_FACTOR]
        _ ≤ SPEED_MULT_FACTOR ^ N :=
            Nat.pow_le_pow_right (by norm_num [SPEED_MULT_FACTOR]) h7
        _ = 1 * SPEED_MULT_FACTOR ^ N := (one_mul _).symm
        _ ≤ g 0 * SPEED_MULT_FACTOR ^ N := Nat.mul_le_mul_right _ h1
    rw [min_eq_right hbig] at hNge
    exact le_antisymm hNle hNge

/-- Witness for C1: a concrete fast window (buffer 8192, duration 0) grows
the buffer to 81920 recording nothing, and the concrete trajectory
starting at 1 byte reaches exactly MAX_BUFFER_SIZE after seven fast
windows. -/
theorem c1_download_probe_growth_witness :
    ((DlState.mk 81920 [] 0 []).bufferSize =
        min ((DlState.mk 8192 [] 0 [ChunkEvent.chunk]).bufferSize * SPEED_MULT_FACTOR)
          MAX_BUFFER_SIZE ∧
      (DlState.mk 81920 [] 0 []).speedHistory =
        (DlState.mk 8192 [] 0 [ChunkEvent.chunk]).speedHistory) ∧
    fastBuffers 7 = MAX_BUFFER_SIZE := by
  constructor
  · exact c1_download_probe_growth.1 (DlState.mk 8192 [] 0 [ChunkEvent.chunk]) 0
      (DlState.mk 81920 [] 0 [])
      (by norm_num [dlStep, read_n_request_chunks, min_def,
        CHUNK_SIZE, SPEED_MULT_FACTOR, MAX_BUFFER_SIZE])
      (by norm_num)
  · exact (c1_download_probe_growth.2 fastBuffers 7 (fun i _ => rfl)
      ⟨le_refl 1, by norm_num [fastBuffers, MAX_BUFFER_SIZE]⟩).2.2 (le_refl 7)

/-- Helper: when the read succeeds, the window was not fast, and the
freshly appended sample makes the convergence test of lines 146-150 pass,
the loop breaks with the recorded history. -/
theorem dlStep_stop_on_check (s : DlState) (d : ℚ) (rest : List ChunkEvent)
    (hread : read_n_request_chunks s.stream (s.bufferSize / CHUNK_SIZE) = (true, rest))
    (hslow : ¬ s.elapsed + d < 1/2)
    (hlen : (s.speedHistory ++ [newSpeedOf s d]).length % CHECK_SPEED_ITER = 0)
    (hdev : listAvg (s.speedHistory ++ [newSpeedOf s d]) -
        listMin (s.speedHistory ++ [newSpeedOf s d]) < 20)
    (hpos : 0 < listAvg (s.speedHistory ++ [newSpeedOf s d])) :
    dlStep d s = DlOutcome.stopped (s.speedHistory ++ [newSpeedOf s d]) := by
  have h1 : (read_n_request_chunks s.stream (s.bufferSize / CHUNK_SIZE)).1 = true := by
    rw [hread]
  simp only [dlStep, h1]
  rw [if_neg (by simp), if_neg hslow, if_pos ⟨hlen, hdev, hpos⟩]

/-- C2: after every CHECK_SPEED_ITER-th recorded sample the running
average and the minimum recorded sample are computed and, when the average
minus the minimum is below 20 and the average is positive, the probe
stops; in particular when the first ten recorded samples all equal one
positive value the probe stops at the tenth sample. -/
theorem c2_convergence_stop :
    (∀ (s : DlState) (d : ℚ) (rest : List ChunkEvent),
        read_n_request_chunks s.stream (s.bufferSize / CHUNK_SIZE) = (true, rest) →
        ¬ s.elapsed + d < 1/2 →
        (s.speedHistory ++ [newSpeedOf s d]).length % CHECK_SPEED_ITER = 0 →
        listAvg (s.speedHistory ++ [newSpeedOf s d]) -
          listMin (s.speedHistory ++ [newSpeedOf s d]) < 20 →
        0 < listAvg (s.speedHistory ++ [newSpeedOf s d]) →
        dlStep d s = DlOutcome.stopped (s.speedHistory ++ [newSpeedOf s d])) ∧
    (∀ (s : DlState) (d : ℚ) (rest : List ChunkEvent) (v : ℚ),
        0 < v →
        s.speedHistory = List.replicate 9 v →
        newSpeedOf s d = v →
        read_n_request_chunks s.stream (s.bufferSize / CHUNK_SIZE) = (true, rest) →
        ¬ s.elapsed + d < 1/2 →
        dlStep d s = DlOutcome.stopped (List.replicate 10 v)) := by
  refine ⟨dlStep_stop_on_check, ?_⟩
  intro s d rest v hv hh hnew hread hslow
  have hrepl : s.speedHistory ++ [newSpeedOf s d] = List.replicate 10 v := by
    rw [hh, hnew, ← List.replicate_succ']
  have havg : listAvg (List.replicate 10 v) = v := listAvg_replicate 10 v (by norm_num)
  have hmin : listMin (List.replicate 10 v) = v := listMin_replicate 9 v
  have hfin := dlStep_stop_on_check s d rest hread hslow
    (by rw [hrepl]; simp [CHECK_SPEED_ITER])
    (by rw [hrepl, havg, hmin]; norm_num)
    (by rw [hrepl, havg]; exact hv)
  rw [hrepl] at hfin
  exact hfin

/-- Witness for C2: with nine recorded samples of 16 KB/s and a tenth
window of 8192 bytes taking exactly 0.5 s (another 16 KB/s sample), the
probe stops with ten equal samples. -/
theorem c2_convergence_stop_witness :
    dlStep (1/2) (DlState.mk 8192 (List.replicate 9 16) 0 [ChunkEvent.chunk]) =
      DlOutcome.stopped (List.replicate 10 16) := by
  refine c2_convergence_stop.2 _ (1/2) [] 16 (by norm_num) rfl ?_ ?_ (by norm_num)
  · norm_num [newSpeedOf]
  · rfl

/-- C3 (failing-input evaluation): if the streaming body ends before any
sample is recorded, the final averaging of line 153 divides by zero and
the probe crashes with ZeroDivisionError instead of reporting an
insufficient-data error. -/
theorem c3_zero_samples_division_crash :
    getDownloadSpeed CHUNK_SIZE [1] [] = some (Except.error PyErr.zeroDivision) := rfl

/-- Helper: a transport exception within the current window makes
`_read_n_request_chunks` report failure (the bare except swallows it). -/
theorem read_n_err_swallowed (pre rest : List ChunkEvent) (n : ℕ)
    (hpre : ∀ e ∈ pre, e = ChunkEvent.chunk) (hn : pre.length < n) :
    (read_n_request_chunks (pre ++ ChunkEvent.err :: rest) n).1 = false := by
  induction pre generalizing n with
  | nil =>
    cases n with
    | zero => exact absurd hn (Nat.lt_irrefl 0)
    | succ m => rfl
  | cons a pre ih =>
    cases n with
    | zero => exact absurd hn (Nat.not_lt_zero _)
    | succ m =>
      have ha : a = ChunkEvent.chunk := hpre a (List.mem_cons_self a pre)
      subst ha
      exact ih m (fun e he => hpre e (List.mem_cons_of_mem _ he))
        (Nat.lt_of_succ_lt_succ hn)

/-- C4 (amended): a transport error raised while consuming chunks inside a
probing window is swallowed by the bare except of `_read_n_request_chunks`
and treated as end of stream — the loop exits normally with the samples
recorded so far instead of propagating the error. -/
theorem c4_transport_error_swallowed (s : DlState) (d : ℚ)
    (pre rest : List ChunkEvent)
    (hpre : ∀ e ∈ pre, e = ChunkEvent.chunk)
    (hstream : s.stream = pre ++ ChunkEvent.err :: rest)
    (hlen : pre.length < s.bufferSize / CHUNK_SIZE) :
    dlStep d s = DlOutcome.stopped s.speedHistory := by
  have hf : (read_n_request_chunks s.stream (s.bufferSize / CHUNK_SIZE)).1 = false := by
    rw [hstream]
    exact read_n_err_swallowed pre rest _ hpre hlen
  simp only [dlStep]
  rw [if_pos hf]

/-- Witness for C4's amended statement: a window that immediately hits a
transport error stops the probe with the single earlier sample intact. -/
theorem c4_transport_error_swallowed_witness :
    dlStep 0 (DlState.mk 8192 [5] 0 [ChunkEvent.err]) = DlOutcome.stopped [5] :=
  c4_transport_error_swallowed (DlState.mk 8192 [5] 0 [ChunkEvent.err]) 0 [] []
    (by simp) rfl (by norm_num [CHUNK_SIZE])

/-- Counterexample to C4 as stated: a run whose stream raises a transport
error after one recorded sample makes the probe return a computed average
(8 KB/s) as if the stream had merely ended, rather than propagating the
error. -/
theorem c4_transport_error_counterexample :
    ChunkEvent.err ∈ [ChunkEvent.chunk, ChunkEvent.err] ∧
    getDownloadSpeed CHUNK_SIZE [1, 1] [ChunkEvent.chunk, ChunkEvent.err] =
      some (Except.ok 8) := by
  constructor
  · simp
  · norm_num [getDownloadSpeed, dlLoop, dlStep, read_n_request_chunks, newSpeedOf,
      listAvg, listMin, CHUNK_SIZE, CHECK_SPEED_ITER, SPEED_MULT_FACTOR, MAX_BUFFER_SIZE]

/-- C5 (failing-input evaluation): the upload probe builds a 64 MiB
payload, but line 126 calls the float timestamp `start` as a function, so
for every elapsed duration the computation raises TypeError instead of
returning 64 * 1024 divided by the duration (which for a 1.0 s duration
would have been 64 * 1024 KB/s, as the spec-modelled formula shows). -/
theorem c5_upload_speed_type_error :
    (∀ startT nowT : ℚ, getUploadSpeed startT nowT = Except.error PyErr.typeErrFloatCall) ∧
    uploadPayloadSize = 64 * 1048576 ∧
    uploadSpeedSpec 1 = 64 * 1024 := by
  refine ⟨fun _ _ => rfl, rfl, ?_⟩
  norm_num [uploadSpeedSpec]

/-- C6 (failing-input evaluation): whatever the rest of the body would
have done with a bound correlation id, `get_connection_speed` raises
UnboundLocalError at its first statement, because the assignment
`random = random.getrandbits(128)` makes `random` a local name read before
assignment; no probe runs and no result mapping is built. -/
theorem c6_connection_speed_unbound_local :
    ∀ k : ℕ → Except PyErr (ℚ × ℚ × ℚ),
      getConnectionSpeedBody k = Except.error PyErr.unboundLocal :=
  fun _ => rfl

/-- C7 (amended): `_send_http_req` raises GridError with the exact status
code precisely when the status is at least 400 (`res.ok` is status < 400);
any status below 400 — all 2xx but also surfaced 3xx responses — returns
the raw response bytes. -/
theorem c7_http_error_status (m : HttpMethod) (r : HttpResponse) :
    (400 ≤ r.statusCode →
      send_http_req m r =
        Except.error { error := "HTTP response is not OK", status := some r.statusCode }) ∧
    (r.statusCode < 400 → send_http_req m r = Except.ok r.content) := by
  constructor
  · intro h
    have hok : r.ok = false := by
      simp only [HttpResponse.ok, decide_eq_false_iff_not, not_lt]
      exact h
    simp [send_http_req, hok]
  · intro h
    have hok : r.ok = true := by
      simp only [HttpResponse.ok, decide_eq_true_eq]
      exact h
    simp [send_http_req, hok]

/-- Witness for C7's amended statement: a 404 response raises GridError
carrying status 404. -/
theorem c7_http_error_status_witness :
    send_http_req HttpMethod.GET (HttpResponse.mk 404 []) =
      Except.error { error := "HTTP response is not OK", status := some 404 } :=
  (c7_http_error_status HttpMethod.GET (HttpResponse.mk 404 [])).1 (by norm_num)

/-- Counterexample to C7 as stated: 304 Not Modified is not a 2xx status,
yet `res.ok` is true for it, so `_send_http_req` returns the body instead
of raising a GridError. -/
theorem c7_non_2xx_counterexample :
    ¬ (200 ≤ 304 ∧ 304 ≤ 299) ∧
    send_http_req HttpMethod.GET (HttpResponse.mk 304 []) = Except.ok [] :=
  ⟨by omega, rfl⟩

/-- C8 (failing-input evaluation): calling `close` on a client that never
connected evaluates `None.shutdown()` and raises AttributeError, so close
is not safe without a prior connect. -/
theorem c8_close_unopened_attribute_error :
    closeClient initClient = Except.error PyErr.attributeNone := rfl

/-- C9 (failing-input evaluation): `get_protocol` targets
/federated/get-protocol and deserializes a Protocol, but it sends the
given protocol id under the query key "plan_id": no "protocol_id"
parameter is present in the request. -/
theorem c9_get_protocol_param_key :
    getProtocolPath = "/federated/get-protocol" ∧
    getProtocolPBKind = PBKind.ProtocolPB ∧
    lookupParam "protocol_id" (getProtocolParams "w" "k" "p7") = none ∧
    lookupParam "plan_id" (getProtocolParams "w" "k" "p7") = some "p7" :=
  ⟨rfl, rfl, by decide, by decide⟩

/-- C10: every server-reported failure raised by this client is a
GridError, whose class derives from BaseException but not from Exception
(so a generic `except Exception:` handler does not catch it); on the
persistent-connection path the status field is always None, while the
HTTP path carries the exact status code. -/
theorem c10_grid_error_uncatchable :
    pyCatches PyClass.ExceptionC PyClass.GridErrorC = false ∧
    pyCatches PyClass.BaseExceptionC PyClass.GridErrorC = true ∧
    (∀ (resp : WsResponse) (e : GridErrorData),
        send_msg resp = Except.error e → e.status = none) ∧
    (∀ (m : HttpMethod) (r : HttpResponse) (e : GridErrorData),
        send_http_req m r = Except.error e → e.status = some r.statusCode) := by
  refine ⟨by decide, by decide, ?_, ?_⟩
  · intro resp e h
    unfold send_msg at h
    cases hde : resp.dataError with
    | none => rw [hde] at h; exact absurd h (by simp)
    | some msg => rw [hde] at h; cases h; rfl
  · intro m r e h
    unfold send_http_req at h
    by_cases hok : r.ok = false
    · rw [if_pos hok] at h; cases h; rfl
    · rw [if_neg hok] at h; exact absurd h (by simp)

/-- Witness for C10: Exception does not catch GridError, a
persistent-connection error response yields status None, and a 500 HTTP
response yields status 500. -/
theorem c10_grid_error_uncatchable_witness :
    pyCatches PyClass.ExceptionC PyClass.GridErrorC = false ∧
    (GridErrorData.mk "boom" none).status = none ∧
    (GridErrorData.mk "HTTP response is not OK" (some 500)).status =
      some (HttpResponse.mk 500 []).statusCode :=
  ⟨c10_grid_error_uncatchable.1,
   c10_grid_error_uncatchable.2.2.1 (WsResponse.mk (some "boom") "x")
     (GridErrorData.mk "boom" none) rfl,
   c10_grid_error_uncatchable.2.2.2 HttpMethod.POST (HttpResponse.mk 500 [])
     (GridErrorData.mk "HTTP response is not OK" (some 500)) rfl⟩
